import Mathlib

/-!
Verification development for `src/packages/cli/helpers/build.ts`: the CLI
build orchestration script (lifecycle plugin, external-resolution override,
build configs, chmodX and replaceFirstLine utilities).

Shallow embedding conventions:
* esbuild plugin `setup` functions are embedded as pure functions from the
  relevant initial options to a record of what callbacks they register.
* The `onEnd` await chain is embedded as a step sequencer over an
  environment that says which underlying filesystem/process operations fail.
* Node `path` functions are embedded over POSIX path strings, with the
  segment splitting written structurally so terms evaluate in the kernel.
* Machine-level file modes are plain `Nat` with explicit masking.
-/

/-! ## esbuild initial options and the lifecycle plugin guard

Source (`build.ts` lines 14-18):
```
const cliLifecyclePlugin: esbuild.Plugin = {
  name: "cliLifecyclePlugin",
  setup(build) {
    // we only do this for the first one of the builds
    if (build.initialOptions?.format === "esm") return
    build.onStart(...)
    build.onEnd(...)
```
`build.initialOptions?` is optional chaining, so the options object itself
and its `format` field may each be absent; the guard compares the result
with the string `"esm"` under strict equality. -/

structure InitialOptions where
  format : Option String := none
  outfile : Option String := none
deriving DecidableEq

structure LifecycleRegistrations where
  onStartRegistered : Bool
  onEndRegistered : Bool
deriving DecidableEq

/-- Embedding of `cliLifecyclePlugin.setup`: which lifecycle callbacks get
registered, as a function of `build.initialOptions`.  The early `return`
fires exactly when the format option equals the string `"esm"`. -/
def cliLifecycleSetup (initialOptions : Option InitialOptions) : LifecycleRegistrations :=
  if (initialOptions.bind (fun o => o.format)) = some "esm" then
    { onStartRegistered := false, onEndRegistered := false }
  else
    { onStartRegistered := true, onEndRegistered := true }

/-- Number of descriptors in a batch for which the lifecycle plugin
registers its staging (`onStart`/`onEnd`) side effects. -/
def stagingRegistrationCount (batch : List (Option InitialOptions)) : Nat :=
  (batch.map cliLifecycleSetup).countP
    (fun r => r.onStartRegistered || r.onEndRegistered)

/-! ## Build configs

Source (`build.ts` lines 81-110): the three `BuildOptions` literals and the
single `build([...])` invocation.  Plugins are identified by their `name`
field; fields absent from a literal stay at their default. -/

structure BuildOptions where
  name : String
  entryPoints : List String
  outfile : String
  plugins : List String := []
  bundle : Bool := false
  emitTypes : Option Bool := none
  minify : Option Bool := none
  external : List String := []
deriving DecidableEq

def cliBuildConfig : BuildOptions :=
  { name := "cli"
    entryPoints := ["src/bin.ts"]
    outfile := "build/index"
    plugins := ["cliLifecyclePlugin", "externalPackageJson"]
    bundle := true
    emitTypes := some false
    minify := some true }

def preinstallBuildConfig : BuildOptions :=
  { name := "preinstall"
    entryPoints := ["scripts/preinstall.ts"]
    outfile := "preinstall/index"
    bundle := true
    emitTypes := some false
    minify := some true }

def migrateBuildConfig : BuildOptions :=
  { name := "migrate"
    entryPoints := ["src/migrate/index.ts"]
    outfile := "build/migrate"
    external := ["@prisma/engines"]
    plugins := ["externalPackageJson"]
    bundle := true }

/-- The batch passed to `build([...])` at the bottom of the file. -/
def cliBuildBatch : List BuildOptions :=
  [cliBuildConfig, preinstallBuildConfig, migrateBuildConfig]

/-! ## The replaceFirstLine promise wrapper

Source (`build.ts` lines 122-132):
```
function replaceFirstLine(filename: string, line: string) {
  return new Promise((resolve) => {
    lineReplace({ file: filename, line: 1, text: line, addNewLine: false,
                  callback: resolve })
  })
}
```
`line-replace` reports completion through `callback`, whose payload includes
an `error` field; since `resolve` itself is passed as the callback, every
completion (error or not) settles the promise by resolution. -/

structure LineReplaceCompletion where
  file : String
  line : Nat
  text : String
  replacedText : String
  error : Option String
deriving DecidableEq

inductive PromiseOutcome (α : Type) where
  | resolved (value : α)
  | rejected (error : String)
deriving DecidableEq

/-- Embedding of the promise built by `replaceFirstLine`, as a function of the
completion the `line-replace` library delivers to `callback`. -/
def replaceFirstLine (completion : LineReplaceCompletion) :
    PromiseOutcome LineReplaceCompletion :=
  PromiseOutcome.resolved completion

/-! ## The onEnd staging sequence

Source (`build.ts` lines 25-57): the `onEnd` callback awaits, in source
order, four copy operations, then `replaceFirstLine`, then calls the
synchronous `chmodX`.  A rejected `await` (or a synchronous throw from
`chmodX`) rejects the async callback right there, so no later statement
runs; the promise built by `replaceFirstLine` is the wrapper embedded above and never
rejects, whatever the underlying library reports. -/

inductive StepId where
  | copyStudioDist
  | copyCheckpointChild
  | copyXdgOpen
  | copyWasm
  | replaceLine
  | chmod
deriving DecidableEq, Fintype

/-- An environment records which underlying filesystem / library operations
fail when attempted. -/
def StepEnv : Type := StepId → Bool

/-- The completion `line-replace` delivers to the callback of `replaceFirstLine`
under a given environment (arguments as at `build.ts` line 54). -/
def lineReplaceCompletionOf (env : StepEnv) : LineReplaceCompletion :=
  { file := "./build/index.js"
    line := 1
    text := "#!/usr/bin/env node\n"
    replacedText := ""
    error := if env StepId.replaceLine then some "rewrite failed" else none }

/-- Whether awaiting a given statement of the `onEnd` body throws.  The four
copy steps and `chmodX` surface the failure of their operation directly; the
rewrite step throws only if the promise built by `replaceFirstLine` rejects. -/
def awaitFails (env : StepEnv) : StepId → Bool
  | StepId.replaceLine =>
    match replaceFirstLine (lineReplaceCompletionOf env) with
    | PromiseOutcome.rejected _ => true
    | PromiseOutcome.resolved _ => false
  | s => env s

/-- The statements of the `onEnd` body, in source order. -/
def onEndStepOrder : List StepId :=
  [StepId.copyStudioDist, StepId.copyCheckpointChild, StepId.copyXdgOpen,
   StepId.copyWasm, StepId.replaceLine, StepId.chmod]

/-- Sequential execution of a statement list: each statement is awaited to
completion before the next begins, and a throw aborts the rest.  Returns
the trace of attempted statements and the statement whose await threw, if
any. -/
def runStepsFrom (env : StepEnv) : List StepId → List StepId × Option StepId
  | [] => ([], none)
  | s :: rest =>
    if awaitFails env s then ([s], some s)
    else
      let r := runStepsFrom env rest
      (s :: r.1, r.2)

/-- Embedding of one run of the `onEnd` callback. -/
def runOnEnd (env : StepEnv) : List StepId × Option StepId :=
  runStepsFrom env onEndStepOrder

/-- Environment in which every underlying operation succeeds. -/
def envAllSucceed : StepEnv := fun _ => false

/-- Environment in which exactly the underlying first-line rewrite
operation fails. -/
def envOnlyRewriteFails : StepEnv := fun s =>
  match s with
  | StepId.replaceLine => true
  | _ => false

/-- Environment in which exactly the chmod operation fails. -/
def envOnlyChmodFails : StepEnv := fun s =>
  match s with
  | StepId.chmod => true
  | _ => false

/-- Position of a statement in the `onEnd` body. -/
def stepIndex : StepId → Nat
  | StepId.copyStudioDist => 0
  | StepId.copyCheckpointChild => 1
  | StepId.copyXdgOpen => 2
  | StepId.copyWasm => 3
  | StepId.replaceLine => 4
  | StepId.chmod => 5

/-! ## chmodX

Source (`build.ts` lines 114-120):
```
function chmodX(filename: string) {
  const s = fs.statSync(filename)
  const newMode = s.mode | 64 | 8 | 1
  if (s.mode === newMode) return
  const base8 = newMode.toString(8).slice(-3)
  fs.chmodSync(filename, base8)
}
```
`stat` modes fit in 16 bits (file-type bits 12-15, special bits 9-11,
permission bits 0-8).  `newMode.toString(8).slice(-3)` keeps the last three
octal digits, i.e. `newMode % 512`; `chmodSync` parses the string as octal
and sets the low 12 permission bits of the file to that value. -/

/-- What `chmodX` writes: `none` when it returns before calling `chmodSync`,
`some m` when it calls `chmodSync` with (the octal string of) `m`. -/
def chmodX (mode : Nat) : Option Nat :=
  let newMode := mode ||| 64 ||| 8 ||| 1
  if mode = newMode then none
  else some (newMode % 512)

/-- Effect of `chmodSync` on a stat mode: the low 12 (permission) bits are
replaced by the requested value, the file-type bits are untouched. -/
def applyChmod (mode perm : Nat) : Nat :=
  (mode / 4096) * 4096 + perm % 4096

/-- The resulting file mode after running `chmodX` on a file of the given mode. -/
def chmodXFinal (mode : Nat) : Nat :=
  match chmodX mode with
  | none => mode
  | some perm => applyChmod mode perm

/-! ## POSIX path model (node `path` on posix paths)

`build.ts` uses `path.resolve`, `path.dirname`, `path.relative` and
`path.join` on POSIX-style strings.  We embed them over path strings,
with the character-level work written structurally so that concrete
instances evaluate. -/

/-- Split a character list on the slash character. -/
def splitSlashAux : List Char → List Char → List (List Char)
  | [], acc => [acc.reverse]
  | c :: cs, acc =>
    if c = '/' then acc.reverse :: splitSlashAux cs []
    else splitSlashAux cs (c :: acc)

/-- The slash-separated segments of a path string. -/
def pathSegments (s : String) : List String :=
  (splitSlashAux s.toList []).map List.asString

/-- Whether a path string is absolute (starts with a slash). -/
def isAbsolutePath (s : String) : Bool :=
  match s.toList with
  | '/' :: _ => true
  | _ => false

/-- Normalization of the segments of an absolute path: drop empty and `.`
segments, resolve `..` against the accumulated prefix (at the root, `..`
stays at the root, as node does for absolute paths). -/
def normalizeAbsSegs (segs : List String) : List String :=
  segs.foldl
    (fun acc s =>
      if s = "" || s = "." then acc
      else if s = ".." then acc.dropLast
      else acc ++ [s])
    []

/-- Render an absolute path from its normalized segments. -/
def renderAbs (segs : List String) : String :=
  "/" ++ String.intercalate "/" segs

/-- One step of the left-to-right accumulation of node `path.resolve`: an
absolute argument restarts the accumulator, a relative one is appended. -/
def resolveAccum (acc p : String) : String :=
  if isAbsolutePath p then p else acc ++ "/" ++ p

/-- Embedding of `path.resolve(...parts)` with current working directory
`cwd` (assumed absolute): accumulate the arguments, then normalize. -/
def pathResolve (cwd : String) (parts : List String) : String :=
  renderAbs (normalizeAbsSegs (pathSegments (parts.foldl resolveAccum cwd)))

/-- Embedding of `path.dirname` on an absolute path: the path without its
last segment. -/
def pathDirname (p : String) : String :=
  renderAbs ((normalizeAbsSegs (pathSegments p)).dropLast)

/-- Drop the common leading segments of two segment lists. -/
def dropCommonPrefix : List String → List String → List String × List String
  | a :: as, b :: bs =>
    if a = b then dropCommonPrefix as bs else (a :: as, b :: bs)
  | as, bs => (as, bs)

/-- Embedding of `path.relative(src, dst)` for absolute `src`, `dst`: climb
out of the uncommon part of `src` with `..` segments, then descend into the
uncommon part of `dst`. -/
def pathRelative (src dst : String) : String :=
  let s := normalizeAbsSegs (pathSegments src)
  let d := normalizeAbsSegs (pathSegments dst)
  let r := dropCommonPrefix s d
  String.intercalate "/" (List.replicate r.1.length ".." ++ r.2)

/-! ## The externalPackageJson plugin

Source (`build.ts` lines 64-78):
```
const externalPackageJson: esbuild.Plugin = {
  name: "externalPackageJson",
  setup(build) {
    const pkgJson = path.resolve(__dirname, "..", "package.json")
    const outfile = path.resolve(build.initialOptions.outfile!)
    const outdir = path.dirname(outfile)
    const pkgJsonRelative = path.relative(outdir, pkgJson)
    build.onResolve({ filter: /package\.json$/ }, (args) => {
      if (path.resolve(args.resolveDir, args.path) == pkgJson) {
        return { path: pkgJsonRelative, external: true }
      }
      return undefined
    })
  },
}
```
esbuild invokes the `onResolve` callback only for import specifiers
matching the filter regex; `/package\.json$/` holds exactly of strings
ending in `"package.json"`. -/

structure OnResolveArgs where
  resolveDir : String
  path : String
deriving DecidableEq

structure OnResolveResult where
  path : String
  external : Bool
deriving DecidableEq

/-- Whether a specifier matches the `onResolve` filter `/package\.json$/`. -/
def matchesPackageJsonFilter (s : String) : Bool :=
  "package.json".toList.isSuffixOf s.toList

/-- The values `externalPackageJson.setup` computes before registering its
`onResolve` callback. -/
structure ExternalPackageJsonState where
  pkgJson : String
  pkgJsonRelative : String
deriving DecidableEq

/-- Embedding of the `setup` prelude of `externalPackageJson`, as a function
of the `__dirname` of the module, the process working directory and the
`outfile` option. -/
def externalPackageJsonSetup (dirname cwd outfile : String) :
    ExternalPackageJsonState :=
  let pkgJson := pathResolve cwd [dirname, "..", "package.json"]
  let outfileAbs := pathResolve cwd [outfile]
  let outdir := pathDirname outfileAbs
  { pkgJson := pkgJson, pkgJsonRelative := pathRelative outdir pkgJson }

/-- Embedding of the registered resolution override: the esbuild filter gate
followed by the callback body.  `none` means "no decision, default
resolution applies". -/
def externalPackageJsonOnResolve (cwd : String)
    (st : ExternalPackageJsonState) (args : OnResolveArgs) :
    Option OnResolveResult :=
  if matchesPackageJsonFilter args.path then
    if pathResolve cwd [args.resolveDir, args.path] = st.pkgJson then
      some { path := st.pkgJsonRelative, external := true }
    else none
  else none

/-! ## Spec-modelled collaborators

`build.ts` imports `run` and `build` from `helpers/compile` and the
`line-replace` library; those files are not part of the sources here, so
the definitions below follow the description the spec gives of them. -/

/-- Modelled from the spec: the process-execution collaborator
(`helpers/compile/run`, not among the sources): "given a shell command
string, runs it to completion and fails the caller if it exits non-zero"
(spec section 6).  The result is a function of the exit
code. -/
def runShell (exitCode : Nat) : Except String Unit :=
  if exitCode = 0 then Except.ok ()
  else Except.error "command failed with a non-zero exit code"

/-- Embedding of the `onStart` callback (`build.ts` lines 20-23): it awaits
`run("node -r esbuild-register ./helpers/copy-prisma-client.ts")`, so it
throws exactly when that process fails. -/
def onStartHook (exitCode : Nat) : Except String Unit :=
  runShell exitCode

/-- A target as the Build Runner sees it: a name and whether the lifecycle
hook plugin is attached to it. -/
structure PipelineTarget where
  name : String
  hasLifecycleHook : Bool
deriving DecidableEq

/-- Modelled from the spec: building one target (`helpers/compile/build`,
not among the sources).  "For the target carrying hooks, `onStart` strictly
precedes the compilation of that target" (spec section 5), and an `onStart`
failure "must prevent the compiler from proceeding" (spec section 4.2).
Returns the names of targets whose output files were produced, and an error
if the build failed. -/
def buildOneTarget (exitCode : Nat) (t : PipelineTarget) :
    List String × Except String Unit :=
  if t.hasLifecycleHook then
    match onStartHook exitCode with
    | Except.error e => ([], Except.error e)
    | Except.ok () => ([t.name], Except.ok ())
  else ([t.name], Except.ok ())

/-- Modelled from the spec: the Build Runner (`helpers/compile/build`, not
among the sources): a failing descriptor "aborts the whole
pipeline (fail-fast, no partial-success reporting)" (spec section 4.1).
Returns the produced outputs and the single fatal error, if any. -/
def runPipeline (exitCode : Nat) : List PipelineTarget → List String × Option String
  | [] => ([], none)
  | t :: rest =>
    match buildOneTarget exitCode t with
    | (outs, Except.ok ()) =>
      let r := runPipeline exitCode rest
      (outs ++ r.1, r.2)
    | (outs, Except.error e) => (outs, some e)

/-- Modelled from the spec: the first-line text replacement primitive of
the filesystem collaborator (the `line-replace` library, not among the
sources), on a file given as its sequence of lines: "rewrite the first line
... preserving all subsequent lines unchanged, without adding a trailing
terminator" (spec section 4.2). -/
def lineReplaceEffect : List String → String → List String
  | [], text => [text]
  | _ :: rest, text => text :: rest

/-! ## Helper lemmas -/

theorem lor_const_73 (m : Nat) : m ||| 64 ||| 8 ||| 1 = m ||| 73 := by
  have h1 : (64 ||| (8 ||| 1) : Nat) = 73 := by decide
  rw [Nat.lor_assoc, Nat.lor_assoc, h1]

theorem two_pow_mul_add_lor (n q p c : Nat) (hp : p < 2 ^ n) (hc : c < 2 ^ n) :
    (2 ^ n * q + p) ||| c = 2 ^ n * q + (p ||| c) := by
  rw [Nat.mul_add_lt_is_or hp, Nat.lor_assoc,
    ← Nat.mul_add_lt_is_or (Nat.or_lt_two_pow hp hc)]

theorem lor73_split_4096 (mode : Nat) :
    mode ||| 73 = 4096 * (mode / 4096) + (mode % 4096 ||| 73) := by
  have h4096 : (4096 : Nat) = 2 ^ 12 := by norm_num
  rw [h4096]
  conv_lhs => rw [← Nat.div_add_mod mode (2 ^ 12)]
  exact two_pow_mul_add_lor 12 _ _ 73 (Nat.mod_lt mode (by norm_num)) (by norm_num)

theorem runStepsFrom_trace_le (env : StepEnv) (l : List StepId) :
    (runStepsFrom env l).1 <+: l := by
  induction l with
  | nil => simp [runStepsFrom]
  | cons s rest ih =>
    unfold runStepsFrom
    by_cases h : awaitFails env s
    · simp [h]
    · simpa [h] using ih

theorem runStepsFrom_complete_of_no_error (env : StepEnv) (l : List StepId)
    (h : (runStepsFrom env l).2 = none) : (runStepsFrom env l).1 = l := by
  induction l with
  | nil => simp [runStepsFrom]
  | cons s rest ih =>
    unfold runStepsFrom at h ⊢
    by_cases hf : awaitFails env s
    · simp [hf] at h
    · simp only [hf, Bool.false_eq_true, if_neg] at h ⊢
      simp [ih h]

/-! ## Claim theorems -/

/-- C1: for every resolution request whose specifier matches the
`/package\.json$/` filter, the override resolves the absolute path from
`(resolveDir, specifier)`; when that path equals the manifest path of the
target itself it returns the path of the manifest relative to the output
directory of the target together with `external := true`, and whenever the
resolved absolute path differs from the manifest path (even though the bare
specifier matched the filter) it returns no decision, leaving default
resolution to apply. -/
theorem externalPackageJson_resolves_by_path_equality
    (dirname cwd outfile : String) (args : OnResolveArgs)
    (hfilter : matchesPackageJsonFilter args.path = true) :
    (pathResolve cwd [args.resolveDir, args.path] =
        (externalPackageJsonSetup dirname cwd outfile).pkgJson →
      externalPackageJsonOnResolve cwd
          (externalPackageJsonSetup dirname cwd outfile) args =
        some { path := pathRelative (pathDirname (pathResolve cwd [outfile]))
                 (externalPackageJsonSetup dirname cwd outfile).pkgJson,
               external := true }) ∧
    (pathResolve cwd [args.resolveDir, args.path] ≠
        (externalPackageJsonSetup dirname cwd outfile).pkgJson →
      externalPackageJsonOnResolve cwd
          (externalPackageJsonSetup dirname cwd outfile) args = none) := by
  constructor
  · intro heq
    simp only [externalPackageJsonOnResolve, hfilter, heq, eq_self_iff_true,
      if_true, ite_true]
    simp only [externalPackageJsonSetup]
  · intro hne
    simp only [externalPackageJsonOnResolve, hfilter, if_true]
    rw [if_neg hne]

set_option maxHeartbeats 4000000 in
/-- Witness for C1, with the target manifest at `/proj/pkg/package.json`
and the output directory `/proj/pkg/build`: a specifier resolving to the
manifest is redirected to `../package.json` and marked external, while the
manifest of a dependency, though it matches the filter by name, gets no
decision. -/
theorem externalPackageJson_resolves_by_path_equality_witness :
    matchesPackageJsonFilter "../package.json" = true ∧
    externalPackageJsonOnResolve "/proj/pkg"
        (externalPackageJsonSetup "/proj/pkg/helpers" "/proj/pkg" "build/index")
        { resolveDir := "/proj/pkg/src", path := "../package.json" } =
      some { path := "../package.json", external := true } ∧
    externalPackageJsonOnResolve "/proj/pkg"
        (externalPackageJsonSetup "/proj/pkg/helpers" "/proj/pkg" "build/index")
        { resolveDir := "/proj/pkg/node_modules/dep", path := "./package.json" } =
      none := by
  have h := externalPackageJson_resolves_by_path_equality
    "/proj/pkg/helpers" "/proj/pkg" "build/index"
    { resolveDir := "/proj/pkg/src", path := "../package.json" } (by decide)
  have h2 := externalPackageJson_resolves_by_path_equality
    "/proj/pkg/helpers" "/proj/pkg" "build/index"
    { resolveDir := "/proj/pkg/node_modules/dep", path := "./package.json" } (by decide)
  exact ⟨by decide, (h.1 (by decide)).trans (by decide), h2.2 (by decide)⟩

/-- C2: a descriptor whose format is `esm` gets neither an `onStart` nor an
`onEnd` callback from the lifecycle plugin, so in a batch holding both a
`commonjs` and an `esm` descriptor the staging side effects are registered
exactly once, namely for the non-esm build. -/
theorem esm_descriptor_registers_no_hooks (o c e : InitialOptions)
    (ho : o.format = some "esm") (hc : c.format = some "commonjs")
    (he : e.format = some "esm") :
    cliLifecycleSetup (some o) =
      { onStartRegistered := false, onEndRegistered := false } ∧
    cliLifecycleSetup (some c) =
      { onStartRegistered := true, onEndRegistered := true } ∧
    stagingRegistrationCount [some c, some e] = 1 := by
  refine ⟨?_, ?_, ?_⟩
  · simp [cliLifecycleSetup, ho]
  · simp [cliLifecycleSetup, hc]
  · simp [stagingRegistrationCount, cliLifecycleSetup, hc, he, List.countP,
      List.countP.go]

/-- Witness for C2 at concrete option records. -/
theorem esm_descriptor_registers_no_hooks_witness :
    cliLifecycleSetup (some { format := some "esm" }) =
      { onStartRegistered := false, onEndRegistered := false } ∧
    cliLifecycleSetup (some { format := some "commonjs" }) =
      { onStartRegistered := true, onEndRegistered := true } ∧
    stagingRegistrationCount
      [some { format := some "commonjs" }, some { format := some "esm" }] = 1 :=
  esm_descriptor_registers_no_hooks
    { format := some "esm" } { format := some "commonjs" }
    { format := some "esm" } rfl rfl rfl

/-- C3: whenever the `onEnd` hook runs, the attempted staging steps are an
initial portion of the listed order (studio dist copy, checkpoint child
copy, xdg-open copy, wasm copy, first-line rewrite, permission step), each
awaited to completion before the next begins, and when no await throws all
six run in exactly that order. -/
theorem onEnd_steps_in_listed_order (env : StepEnv) :
    (runOnEnd env).1 <+: onEndStepOrder ∧
    ((runOnEnd env).2 = none → (runOnEnd env).1 = onEndStepOrder) :=
  ⟨runStepsFrom_trace_le env onEndStepOrder,
    fun h => runStepsFrom_complete_of_no_error env onEndStepOrder h⟩

/-- Witness for C3: with every operation succeeding, the trace is the full
listed order. -/
theorem onEnd_steps_in_listed_order_witness :
    (runOnEnd envAllSucceed).1 = onEndStepOrder :=
  (onEnd_steps_in_listed_order envAllSucceed).2 (by decide)

/-- C4 as stated is refuted: in the environment where exactly the
underlying first-line rewrite operation fails, `onEnd` does not abort and
nothing propagates — the later permission step still executes (the trace is
the full step list) and the hook reports no error, because
`replaceFirstLine` passes the promise resolver as the completion callback
of the library. -/
theorem onEnd_rewrite_failure_not_fatal :
    envOnlyRewriteFails StepId.replaceLine = true ∧
    runOnEnd envOnlyRewriteFails = (onEndStepOrder, none) ∧
    StepId.chmod ∈ (runOnEnd envOnlyRewriteFails).1 := by
  refine ⟨rfl, rfl, ?_⟩
  decide

/-- C4 amended: failure of any of the four copy steps or of the chmod step
aborts the hook at that step — no later step executes — and propagates as
an error out of `onEnd`; a failure of the underlying first-line rewrite is
converted into normal resolution, never surfaces as the hook error, and
when all other operations succeed the hook still runs every step and
reports no error. -/
theorem onEnd_failfast_except_rewrite :
    ∀ env : StepId → Bool, ∀ s : StepId,
      (s ≠ StepId.replaceLine → env s = true →
        (∀ t : StepId, stepIndex t < stepIndex s → awaitFails env t = false) →
        runOnEnd env = (onEndStepOrder.take (stepIndex s + 1), some s)) ∧
      (runOnEnd env).2 ≠ some StepId.replaceLine ∧
      ((∀ t : StepId, t ≠ StepId.replaceLine → env t = false) →
        runOnEnd env = (onEndStepOrder, none)) := by
  decide

/-- Witness for C4 amended: a chmod failure aborts with the full trace and
the chmod step as the error; a rewrite-only failure completes all steps
with no error. -/
theorem onEnd_failfast_except_rewrite_witness :
    runOnEnd envOnlyChmodFails = (onEndStepOrder, some StepId.chmod) ∧
    runOnEnd envOnlyRewriteFails = (onEndStepOrder, none) := by
  have h := onEnd_failfast_except_rewrite envOnlyChmodFails StepId.chmod
  have h2 := onEnd_failfast_except_rewrite envOnlyRewriteFails StepId.replaceLine
  exact ⟨((h.1 (by decide) (by decide) (by decide)).trans (by decide)),
    h2.2.2 (by decide)⟩

/-- C5 (spec-modelled Build Runner and process collaborator): when the
auxiliary pre-build process exits non-zero, the `onStart` failure of the
hooked target aborts the pipeline before any output is produced, and the
pipeline reports a single fatal error instead of continuing with the
remaining targets. -/
theorem onStart_failure_aborts_pipeline (exitCode : Nat) (t : PipelineTarget)
    (rest : List PipelineTarget) (hne : exitCode ≠ 0)
    (hh : t.hasLifecycleHook = true) :
    runPipeline exitCode (t :: rest) =
      ([], some "command failed with a non-zero exit code") := by
  unfold runPipeline buildOneTarget onStartHook runShell
  simp [hne, hh]

/-- Witness for C5 on the three-target batch with exit code 1. -/
theorem onStart_failure_aborts_pipeline_witness :
    runPipeline 1
      [{ name := "cli", hasLifecycleHook := true },
       { name := "preinstall", hasLifecycleHook := false },
       { name := "migrate", hasLifecycleHook := false }] =
      ([], some "command failed with a non-zero exit code") :=
  onStart_failure_aborts_pipeline 1 { name := "cli", hasLifecycleHook := true }
    [{ name := "preinstall", hasLifecycleHook := false },
     { name := "migrate", hasLifecycleHook := false }]
    (by decide) rfl

/-- C6 as stated is refuted: for a regular file with the sticky bit set,
mode 33700 (octal 101644), the permission step does not leave the other
mode bits untouched — slicing the octal string to its last three digits
drops the sticky bit, so the resulting mode is 33261 (octal 100755) instead
of 33773 (octal 101755), and bit 9 flips from set to clear. -/
theorem chmodX_clears_special_bits :
    chmodX 33700 = some 493 ∧
    chmodXFinal 33700 = 33261 ∧
    33700 ||| 73 = 33773 ∧
    (33261 : Nat) ≠ 33773 ∧
    Nat.testBit 33700 9 = true ∧
    Nat.testBit 33261 9 = false := by
  refine ⟨?_, ?_, ?_, ?_, ?_, ?_⟩ <;> decide

/-- C6 amended: for every file whose mode carries none of the
setuid/setgid/sticky bits (mode % 4096 < 512), the permission step adds
execute capability for owner, group and other while leaving all other mode
bits untouched (the resulting mode is the old mode or-ed with octal 111);
for every file whatsoever, when the computed mode already equals the
current mode no filesystem write is performed at all; and for every file
whatsoever, whenever a write does occur the written value is the
three-octal-digit slice, below octal 1000, so the resulting mode carries
no setuid/setgid/sticky bit — a special bit that was set is cleared. -/
theorem chmodX_adds_exec_and_skips_write (mode : Nat) :
    (mode % 4096 < 512 → chmodXFinal mode = mode ||| 73) ∧
    (mode ||| 73 = mode → chmodX mode = none) ∧
    (∀ p : Nat, chmodX mode = some p →
      p < 512 ∧ chmodXFinal mode % 4096 < 512) := by
  have hchmodX : chmodX mode =
      if mode = mode ||| 73 then none else some ((mode ||| 73) % 512) := by
    simp only [chmodX, lor_const_73]
  refine ⟨?_, ?_, ?_⟩
  · intro hspecial
    have hpc : mode % 4096 ||| 73 < 512 := by
      have h512 : (512 : Nat) = 2 ^ 9 := by norm_num
      rw [h512] at hspecial ⊢
      exact Nat.or_lt_two_pow hspecial (by norm_num)
    by_cases heq : mode = mode ||| 73
    · unfold chmodXFinal
      rw [hchmodX, if_pos heq]
      exact heq
    · unfold chmodXFinal
      rw [hchmodX, if_neg heq]
      show mode / 4096 * 4096 + ((mode ||| 73) % 512) % 4096 = mode ||| 73
      rw [lor73_split_4096 mode]
      omega
  · intro h
    rw [hchmodX, if_pos h.symm]
  · intro p hp
    rw [hchmodX] at hp
    by_cases heq : mode = mode ||| 73
    · rw [if_pos heq] at hp
      exact absurd hp (by simp)
    · rw [if_neg heq] at hp
      injection hp with hpeq
      refine ⟨by omega, ?_⟩
      unfold chmodXFinal
      rw [hchmodX, if_neg heq]
      show (mode / 4096 * 4096 + ((mode ||| 73) % 512) % 4096) % 4096 < 512
      omega

/-- Witness for C6 amended: a file at mode 33188 (octal 100644) ends at
mode 33261 (octal 100755); on files already at octal 100755 and at octal
101755 (sticky bit set, execute bits present) the step performs no write;
and at mode 33700 (octal 101644), where a write occurs, the written value
493 is below 512 and the resulting mode carries no special bit. -/
theorem chmodX_adds_exec_and_skips_write_witness :
    chmodXFinal 33188 = 33261 ∧ chmodX 33261 = none ∧ chmodX 33773 = none ∧
    chmodX 33700 = some 493 ∧ (493 : Nat) < 512 ∧
    chmodXFinal 33700 % 4096 < 512 := by
  have h1 := (chmodX_adds_exec_and_skips_write 33188).1 (by decide)
  have h2 := (chmodX_adds_exec_and_skips_write 33261).2.1 (by decide)
  have h3 := (chmodX_adds_exec_and_skips_write 33773).2.1 (by decide)
  have h4 := (chmodX_adds_exec_and_skips_write 33700).2.2 493 (by decide)
  exact ⟨h1.trans (by decide), h2, h3, by decide, h4.1, h4.2⟩

/-- C7 (spec-modelled line-replace primitive): replacing the first line of
a file leaves the first line exactly the replacement text — no terminator
is appended beyond what the text itself carries, since the lines are
represented without terminators — and all subsequent lines unchanged and in
their original order. -/
theorem lineReplaceEffect_replaces_first_line_only
    (firstLine text : String) (rest : List String) :
    lineReplaceEffect (firstLine :: rest) text = text :: rest :=
  rfl

/-- C8: the batch handed to the Build Runner is exactly the three
descriptors cli (output `build/index`), preinstall (output
`preinstall/index`) and migrate (output `build/migrate`, forced external
`@prisma/engines`), and the output paths are pairwise distinct. -/
theorem cliBuildBatch_descriptors :
    cliBuildBatch.length = 3 ∧
    cliBuildBatch.map (fun c => (c.name, c.outfile)) =
      [("cli", "build/index"), ("preinstall", "preinstall/index"),
       ("migrate", "build/migrate")] ∧
    migrateBuildConfig.external = ["@prisma/engines"] ∧
    (cliBuildBatch.map (fun c => c.outfile)).Nodup := by
  refine ⟨rfl, rfl, rfl, ?_⟩
  decide

/-- C9: the promise built by `replaceFirstLine` settles by resolution for
every completion of the underlying line-replacement library — the
completion callback is the resolve function itself, so an error reported
by the library is converted into a normal resolution and the promise is
never rejected. -/
theorem replaceFirstLine_promise_always_resolves
    (completion : LineReplaceCompletion) :
    replaceFirstLine completion = PromiseOutcome.resolved completion :=
  rfl

/-- C10: with no initial-options object, or with options whose format field
is absent, or with any format other than the exact string `esm`, the
lifecycle plugin registers both hooks exactly as for a non-esm target; the
guard skips registration only on the exact string `esm`. -/
theorem lifecycle_guard_requires_exact_esm (o o2 : InitialOptions)
    (h : o.format = none) (h2 : o2.format ≠ some "esm") :
    cliLifecycleSetup none =
      { onStartRegistered := true, onEndRegistered := true } ∧
    cliLifecycleSetup (some o) =
      { onStartRegistered := true, onEndRegistered := true } ∧
    cliLifecycleSetup (some o2) =
      { onStartRegistered := true, onEndRegistered := true } := by
  refine ⟨by simp [cliLifecycleSetup], ?_, ?_⟩
  · simp [cliLifecycleSetup, h]
  · simp [cliLifecycleSetup, h2]

/-- Witness for C10 at concrete option records: no options object, an
options object with no format, and a commonjs format all register both
hooks. -/
theorem lifecycle_guard_requires_exact_esm_witness :
    cliLifecycleSetup none =
      { onStartRegistered := true, onEndRegistered := true } ∧
    cliLifecycleSetup (some { format := none }) =
      { onStartRegistered := true, onEndRegistered := true } ∧
    cliLifecycleSetup (some { format := some "cjs" }) =
      { onStartRegistered := true, onEndRegistered := true } :=
  lifecycle_guard_requires_exact_esm { format := none }
    { format := some "cjs" } rfl (by simp)
